import Mathlib

/-!
# Boot dispatcher and import filter of `esp32/main.c`

A shallow embedding of `mp_import_stat` and `app_main` from `esp32/main.c`,
together with the C library string routines they call, followed by the
properties established about them.

Conventions.

* A C string is represented by the list of its bytes (`Nat`, one per `char`).
  The list stands for the memory `bytes ++ [0]`: reading one position past the
  list yields the terminator, and a `0` byte inside the list terminates the
  string early, exactly as the C routines would see it. Nothing beyond the
  first terminator is assumed to be accessible.
* Collaborators that live outside `main.c` (`mp_vfs_import_stat`, the RTC
  memory, the reset reason, the button state, ...) are inputs of the model.
* Machine integers are `Nat` reduced modulo `2 ^ w` where the width matters.
-/

namespace Esp32Main

/-! ## C strings and the libc routines used by `mp_import_stat` -/

/-- The bytes of a string literal, one `Nat` per character (all literals of
`main.c` are ASCII, so a character is one byte). -/
def lit (s : String) : List Nat := s.toList.map Char.toNat

/-- The `strlen` routine: number of bytes before the first terminator. -/
def strlen : List Nat → Nat
  | [] => 0
  | c :: s => if c = 0 then 0 else strlen s + 1

/-- The `strncmp` routine: compares at most `n` bytes, stopping at the first
difference or at a terminator; the result is the difference of the two bytes
where the comparison stopped (0 when the compared parts agree). -/
def strncmp : List Nat → List Nat → Nat → Int
  | _, _, 0 => 0
  | s1, s2, n + 1 =>
    let c1 := s1.headD 0
    let c2 := s2.headD 0
    if c1 ≠ c2 then (c1 : Int) - (c2 : Int)
    else if c1 = 0 then 0
    else strncmp s1.tail s2.tail n

/-- The `strcmp` routine: compares up to and including the terminator. -/
def strcmp : List Nat → List Nat → Int
  | [], s2 => 0 - ((s2.headD 0 : Nat) : Int)
  | c1 :: s1, s2 =>
    let c2 := s2.headD 0
    if c1 ≠ c2 then (c1 : Int) - (c2 : Int)
    else if c1 = 0 then 0
    else strcmp s1 s2.tail

/-- The `index` routine (`strchr`): offset of the first occurrence of byte `c`
in the string, the terminator included in the search; `none` is `NULL`. -/
def index : List Nat → Nat → Option Nat
  | [], c => if c = 0 then some 0 else none
  | x :: s, c =>
    if x = c then some 0
    else if x = 0 then none
    else (index s c).map (· + 1)

/-- The pointer `&path[k]`: the string that starts `k` bytes into `path`. It is
`none` when byte `k` lies beyond the terminator of `path`, i.e. the access
would be out of bounds. -/
def offset (path : List Nat) (k : Nat) : Option (List Nat) :=
  if k ≤ strlen path then some (path.drop k) else none

/-! ## `mp_import_stat` -/

/-- Modelled from the spec: the result type `mp_import_stat_t` is declared
outside `main.c`; the spec lists the results does-not-exist, is-directory,
is-file and other filesystem statuses. -/
inductive mp_import_stat_t
  | MP_IMPORT_STAT_NO_EXIST
  | MP_IMPORT_STAT_DIR
  | MP_IMPORT_STAT_FILE
  | other (code : Nat)
  deriving DecidableEq, Repr

open mp_import_stat_t

/-- The table `import_blacklist`. -/
def import_blacklist : List (List Nat) :=
  [lit "/lib/json", lit "/lib/os", lit "/lib/socket", lit "/lib/struct", lit "/lib/time"]

/-- The `for` loop over `import_blacklist`: `true` when some entry compares
equal to `path` under `strcmp` (the loop returns at the first such entry). -/
def blacklist_loop (path : List Nat) : List (List Nat) → Bool
  | [] => false
  | entry :: rest => if strcmp path entry = 0 then true else blacklist_loop path rest

/-- The function `mp_import_stat`. `in_safe_mode` is the global flag,
`mp_vfs_import_stat` the filesystem-status collaborator. The result is `none`
exactly when the function would read outside the buffer of `path`. -/
def mp_import_stat (in_safe_mode : Bool)
    (mp_vfs_import_stat : List Nat → mp_import_stat_t) (path : List Nat) :
    Option mp_import_stat_t :=
  if in_safe_mode then
    -- be more strict in which modules we would like to load
    if strncmp path (lit "/lib/") 5 ≠ 0
        ∧ strncmp path (lit "/bpp/lib/") 9 ≠ 0
        ∧ strncmp path (lit "/sdcard/lib/") 12 ≠ 0 then
      some MP_IMPORT_STAT_NO_EXIST
    else if blacklist_loop path import_blacklist then
      some MP_IMPORT_STAT_NO_EXIST
    else
      match offset path 5 with
      | none => none
      | some p5 =>
        match index p5 '/'.toNat with
        | none =>
          -- only allow directories
          let res := mp_vfs_import_stat path
          if res ≠ MP_IMPORT_STAT_DIR then some MP_IMPORT_STAT_NO_EXIST else some res
        | some _ => some (mp_vfs_import_stat path)
  else
    some (mp_vfs_import_stat path)

/-! ## `app_main` -/

/-- Build-time configuration and constants that `main.c` takes from headers:
whether `CONFIG_SHA_BPP_ENABLE` is defined, the bit number `BADGE_BUTTON_START`
(from `badge_button.h`) and the reset reason `DEEPSLEEP_RESET` (from
`rom/rtc.h`). -/
structure Config where
  CONFIG_SHA_BPP_ENABLE : Bool
  BADGE_BUTTON_START : Nat
  DEEPSLEEP_RESET : Nat

/-- The macro `BUTTON_SAFE_MODE`, `((1 << BADGE_BUTTON_START))`, as a 32-bit
value. -/
def BUTTON_SAFE_MODE (cfg : Config) : Nat := (1 <<< cfg.BADGE_BUTTON_START) % 2 ^ 32

/-- What the collaborators answer during one boot: the values returned by
`esp_rtcmem_read`, by `rtc_get_reset_reason(0)`, the value of the global
`badge_input_button_state` once `badge_init` has run, and the successive
results of `badge_input_get_event(1000)`. -/
structure Env where
  esp_rtcmem_read : Nat → Nat
  rtc_get_reset_reason : Nat
  badge_input_button_state : Nat
  badge_input_get_event : List Nat

/-- The calls to other functions that `app_main` and `do_bpp_bgnd` make. -/
inductive Call
  | badge_check_first_run
  | badge_base_init
  | esp_rtcmem_read (location : Nat)
  | printf (text : String)
  | sha2017_ota_update
  | badge_init
  | bpp_init
  | badge_input_get_event (timeout : Nat)
  | esp_restart
  | xTaskCreateStaticPinnedToCore (core : Nat)
  | badge_first_run
  | rtc_get_reset_reason (cpu : Nat)
  deriving DecidableEq, Repr

/-- The state threaded through `app_main`: the global `in_safe_mode`, and the
log of calls made so far, each paired with the value `in_safe_mode` had when the
call was made. -/
structure State where
  in_safe_mode : Bool
  log : List (Call × Bool)

/-- How control leaves a function: it returns, the device restarts inside it
(`esp_restart` does not return), or it is still waiting in its polling loop when
the recorded poll results end. -/
inductive Ctl
  | returned
  | restarted
  | waiting
  deriving DecidableEq, Repr

/-- Record one call in the log. -/
def call (c : Call) (s : State) : State :=
  { s with log := s.log ++ [(c, s.in_safe_mode)] }

/-- The conversion and complement `(uint8_t)~x` of a `uint8_t` value `x`: `x` is
promoted to `int`, complemented, and reduced to 8 bits. -/
def not_uint8 (x : Nat) : Nat := ((-(x : Int) - 1) % 256).toNat

/-- The loop `while (badge_input_get_event(1000) == 0) { }` of `do_bpp_bgnd`,
run against the recorded poll results. The `Bool` tells whether the loop was
left (a non-zero result was seen). -/
def wait_for_event : List Nat → State → State × Bool
  | [], s => (s, false)
  | e :: es, s =>
    let s := call (Call.badge_input_get_event 1000) s
    if e = 0 then wait_for_event es s else (s, true)

/-- The function `do_bpp_bgnd`. -/
def do_bpp_bgnd (env : Env) (s : State) : State × Ctl :=
  -- Kick off bpp
  let s := call Call.bpp_init s
  let s := call (Call.printf "Bpp inited.\n") s
  -- immediately abort and reboot when touchpad detects something
  match wait_for_event env.badge_input_get_event s with
  | (s, false) => (s, Ctl.waiting)
  | (s, true) =>
    let s := call (Call.printf "Touch detected. Exiting bpp, rebooting.\n") s
    (call Call.esp_restart s, Ctl.restarted)

/-- The call that creates the interpreter task `mp_task`, pinned to core 0. -/
def create_mp_task (s : State) : State := call (Call.xTaskCreateStaticPinnedToCore 0) s

/-- The function `app_main`, started with the global `in_safe_mode` holding
`in_safe_mode0` and an empty log. -/
def app_main (cfg : Config) (env : Env) (in_safe_mode0 : Bool) : State × Ctl :=
  let s : State := { in_safe_mode := in_safe_mode0, log := [] }
  let s := call Call.badge_check_first_run s
  let s := call Call.badge_base_init s
  let s := call (Call.esp_rtcmem_read 0) s
  let magic := env.esp_rtcmem_read 0 % 256
  let s := call (Call.esp_rtcmem_read 1) s
  let inv_magic := env.esp_rtcmem_read 1 % 256
  if magic = not_uint8 inv_magic then
    let s := call (Call.printf "Magic checked out!\n") s
    if magic = 1 then
      let s := call (Call.printf "Starting OTA\n") s
      (call Call.sha2017_ota_update s, Ctl.returned)
    else if cfg.CONFIG_SHA_BPP_ENABLE = true ∧ magic = 2 then
      let s := call Call.badge_init s
      if env.badge_input_button_state % 2 ^ 32 = 0 then
        let s := call (Call.printf "Starting bpp.\n") s
        do_bpp_bgnd env s
      else
        let s := call (Call.printf "Touch wake after bpp.\n") s
        (create_mp_task s, Ctl.returned)
    else if magic = 3 then
      (call Call.badge_first_run s, Ctl.returned)
    else
      (s, Ctl.returned)
  else
    let s := call (Call.rtc_get_reset_reason 0) s
    let reset_cause := env.rtc_get_reset_reason % 2 ^ 32
    let s :=
      if reset_cause ≠ cfg.DEEPSLEEP_RESET then
        let s := call Call.badge_init s
        if (env.badge_input_button_state % 2 ^ 32) &&& BUTTON_SAFE_MODE cfg = BUTTON_SAFE_MODE cfg then
          { s with in_safe_mode := true }
        else s
      else s
    (create_mp_task s, Ctl.returned)

/-! ## Observations on a run of `app_main` -/

/-- The calls of a run, in order. -/
def calls (r : State × Ctl) : List Call := r.1.log.map Prod.fst

/-- Whether a call creates a task. -/
def is_task_create : Call → Bool
  | Call.xTaskCreateStaticPinnedToCore _ => true
  | _ => false

/-- Number of times the interpreter task was created in a run. -/
def tasks_created (r : State × Ctl) : Nat :=
  (calls r).countP is_task_create

/-- The run went through the valid-register branch, whose first statement
prints "Magic checked out!". -/
def valid_branch_taken (r : State × Ctl) : Prop :=
  Call.printf "Magic checked out!\n" ∈ calls r

instance (r : State × Ctl) : Decidable (valid_branch_taken r) := by
  unfold valid_branch_taken
  infer_instance

/-- The 8-bit bitwise complement of a byte, as the spec words it: every one of
the 8 bits flipped. -/
def bitwise_not (v : Nat) : Nat := v ^^^ 255

/-! ## Facts about the string routines -/

theorem strncmp_eq_zero_iff (l : List Nat) (h0 : 0 ∉ l) (s : List Nat) :
    strncmp s l l.length = 0 ↔ l <+: s := by
  induction l generalizing s with
  | nil => simp [strncmp]
  | cons y l ih =>
    have hy : y ≠ 0 := fun h => h0 (by simp [h])
    have hl : 0 ∉ l := fun h => h0 (by simp [h])
    cases s with
    | nil =>
      simp only [List.length_cons, strncmp, List.headD_nil, List.headD_cons]
      simp [Ne.symm hy]
      omega
    | cons x s =>
      simp only [List.length_cons, strncmp, List.headD_cons, List.tail_cons]
      by_cases hxy : x = y
      · subst hxy
        simp [hy, ih hl s, List.cons_prefix_cons]
      · simp [hxy, List.cons_prefix_cons, Ne.symm hxy]
        omega

theorem strcmp_eq_zero (s1 : List Nat) (h1 : 0 ∉ s1) (s2 : List Nat) (h2 : 0 ∉ s2)
    (h : strcmp s1 s2 = 0) : s1 = s2 := by
  induction s1 generalizing s2 with
  | nil =>
    cases s2 with
    | nil => rfl
    | cons y s2 =>
      have hy : y ≠ 0 := fun h => h2 (by simp [h])
      simp [strcmp] at h
      exact absurd h hy
  | cons x s1 ih =>
    have hx : x ≠ 0 := fun h => h1 (by simp [h])
    have hs1 : 0 ∉ s1 := fun h => h1 (by simp [h])
    cases s2 with
    | nil =>
      simp [strcmp, hx] at h
    | cons y s2 =>
      have hs2 : 0 ∉ s2 := fun h => h2 (by simp [h])
      simp only [strcmp, List.headD_cons, List.tail_cons] at h
      by_cases hxy : x = y
      · subst hxy
        simp [hx] at h
        rw [ih hs1 s2 hs2 h]
      · simp [hxy] at h
        omega

theorem index_eq_none (c : Nat) (hc : c ≠ 0) (s : List Nat) (h : c ∉ s) :
    index s c = none := by
  induction s with
  | nil => simp [index, hc]
  | cons x s ih =>
    have hx : x ≠ c := fun e => h (by simp [e])
    have hs : c ∉ s := fun e => h (by simp [e])
    simp [index, hx, ih hs]

theorem index_isSome (c : Nat) (s : List Nat) (h0 : 0 ∉ s) (h : c ∈ s) :
    (index s c).isSome = true := by
  induction s with
  | nil => simp at h
  | cons x s ih =>
    have hx : x ≠ 0 := fun e => h0 (by simp [e])
    have hs : 0 ∉ s := fun e => h0 (by simp [e])
    by_cases hxc : x = c
    · simp [index, hxc]
    · have hcs : c ∈ s := by
        rcases List.mem_cons.mp h with e | e
        · exact absurd e.symm hxc
        · exact e
      simp [index, hxc, hx, ih hs hcs]

theorem prefix_le_strlen (l : List Nat) (h0 : 0 ∉ l) (s : List Nat) (h : l <+: s) :
    l.length ≤ strlen s := by
  induction l generalizing s with
  | nil => simp
  | cons y l ih =>
    have hy : y ≠ 0 := fun e => h0 (by simp [e])
    have hl : 0 ∉ l := fun e => h0 (by simp [e])
    cases s with
    | nil => simp at h
    | cons x s =>
      rw [List.cons_prefix_cons] at h
      obtain ⟨hxy, hp⟩ := h
      subst hxy
      have := ih hl s hp
      simp [strlen, hy]
      exact this

theorem strlen_le_length (s : List Nat) : strlen s ≤ s.length := by
  induction s with
  | nil => simp [strlen]
  | cons x s ih =>
    simp only [strlen, List.length_cons]
    split <;> omega

theorem blacklist_loop_true (path : List Nat) (entries : List (List Nat))
    (h : blacklist_loop path entries = true) : ∃ e ∈ entries, strcmp path e = 0 := by
  induction entries with
  | nil => simp [blacklist_loop] at h
  | cons e rest ih =>
    simp only [blacklist_loop] at h
    by_cases he : strcmp path e = 0
    · exact ⟨e, by simp, he⟩
    · simp only [he, if_false] at h
      obtain ⟨e2, hm, h2⟩ := ih h
      exact ⟨e2, by simp [hm], h2⟩

theorem strncmp_lib (s : List Nat) :
    strncmp s (lit "/lib/") 5 = 0 ↔ lit "/lib/" <+: s :=
  strncmp_eq_zero_iff (lit "/lib/") (by decide) s

theorem strncmp_bpp_lib (s : List Nat) :
    strncmp s (lit "/bpp/lib/") 9 = 0 ↔ lit "/bpp/lib/" <+: s :=
  strncmp_eq_zero_iff (lit "/bpp/lib/") (by decide) s

theorem strncmp_sdcard_lib (s : List Nat) :
    strncmp s (lit "/sdcard/lib/") 12 = 0 ↔ lit "/sdcard/lib/" <+: s :=
  strncmp_eq_zero_iff (lit "/sdcard/lib/") (by decide) s

/-- A path that passes the prefix check of `mp_import_stat` starts with one of
the three roots. -/
theorem prefix_check_passed (path : List Nat)
    (h : ¬ (strncmp path (lit "/lib/") 5 ≠ 0
        ∧ strncmp path (lit "/bpp/lib/") 9 ≠ 0
        ∧ strncmp path (lit "/sdcard/lib/") 12 ≠ 0)) :
    lit "/lib/" <+: path ∨ lit "/bpp/lib/" <+: path ∨ lit "/sdcard/lib/" <+: path := by
  rw [← strncmp_lib, ← strncmp_bpp_lib, ← strncmp_sdcard_lib]
  tauto

/-- A path that starts with one of the three roots has at least 5 bytes before
its terminator. -/
theorem five_le_strlen (path : List Nat)
    (h : lit "/lib/" <+: path ∨ lit "/bpp/lib/" <+: path ∨ lit "/sdcard/lib/" <+: path) :
    5 ≤ strlen path := by
  rcases h with h | h | h
  · exact prefix_le_strlen (lit "/lib/") (by decide) path h
  · exact le_trans (by decide) (prefix_le_strlen (lit "/bpp/lib/") (by decide) path h)
  · exact le_trans (by decide) (prefix_le_strlen (lit "/sdcard/lib/") (by decide) path h)

theorem offset_of_le (path : List Nat) (k : Nat) (h : k ≤ strlen path) :
    offset path k = some (path.drop k) := by
  simp [offset, h]

/-- Past the prefix check and the denylist loop, `mp_import_stat` is decided by
the separator search from offset 5. -/
theorem mp_import_stat_searched (vfs : List Nat → mp_import_stat_t) (path : List Nat)
    (hroot : lit "/lib/" <+: path ∨ lit "/bpp/lib/" <+: path ∨ lit "/sdcard/lib/" <+: path)
    (hbl : blacklist_loop path import_blacklist = false) :
    mp_import_stat true vfs path =
      match index (path.drop 5) '/'.toNat with
      | none => if vfs path ≠ MP_IMPORT_STAT_DIR then some MP_IMPORT_STAT_NO_EXIST
                else some (vfs path)
      | some _ => some (vfs path) := by
  have hp : ¬ (strncmp path (lit "/lib/") 5 ≠ 0
        ∧ strncmp path (lit "/bpp/lib/") 9 ≠ 0
        ∧ strncmp path (lit "/sdcard/lib/") 12 ≠ 0) := by
    rw [Ne, Ne, Ne, strncmp_lib, strncmp_bpp_lib, strncmp_sdcard_lib]
    tauto
  rw [mp_import_stat, if_pos rfl, if_neg hp, hbl, offset_of_le path 5 (five_le_strlen path hroot)]
  simp

theorem mp_import_stat_blacklisted (vfs : List Nat → mp_import_stat_t) (path : List Nat)
    (hbl : blacklist_loop path import_blacklist = true) :
    mp_import_stat true vfs path = some MP_IMPORT_STAT_NO_EXIST := by
  rw [mp_import_stat, if_pos rfl, hbl]
  simp

theorem blacklist_loop_false (path : List Nat) (h0 : 0 ∉ path)
    (h : path ∉ import_blacklist) : blacklist_loop path import_blacklist = false := by
  cases hb : blacklist_loop path import_blacklist with
  | false => rfl
  | true =>
    obtain ⟨e, he, hs⟩ := blacklist_loop_true path import_blacklist hb
    have e0 : 0 ∉ e := (by decide : ∀ e ∈ import_blacklist, 0 ∉ e) e he
    have := strcmp_eq_zero path h0 e e0 hs
    subst this
    exact absurd he h

/-! ## The import filter -/

/-- C1: in safe mode, a path that starts with none of the roots `/lib/`,
`/bpp/lib/`, `/sdcard/lib/` is reported as does-not-exist, whatever the
filesystem-status collaborator answers. -/
theorem mp_import_stat_outside_roots (vfs : List Nat → mp_import_stat_t) (path : List Nat)
    (h1 : ¬ lit "/lib/" <+: path) (h2 : ¬ lit "/bpp/lib/" <+: path)
    (h3 : ¬ lit "/sdcard/lib/" <+: path) :
    mp_import_stat true vfs path = some MP_IMPORT_STAT_NO_EXIST := by
  have hp : strncmp path (lit "/lib/") 5 ≠ 0
        ∧ strncmp path (lit "/bpp/lib/") 9 ≠ 0
        ∧ strncmp path (lit "/sdcard/lib/") 12 ≠ 0 := by
    rw [Ne, Ne, Ne, strncmp_lib, strncmp_bpp_lib, strncmp_sdcard_lib]
    exact ⟨h1, h2, h3⟩
  rw [mp_import_stat, if_pos rfl, if_pos hp]

/-- Witness for C1: `/etc/passwd`, which the filesystem reports as a file. -/
theorem mp_import_stat_outside_roots_witness :
    (¬ lit "/lib/" <+: lit "/etc/passwd") ∧ (¬ lit "/bpp/lib/" <+: lit "/etc/passwd")
      ∧ (¬ lit "/sdcard/lib/" <+: lit "/etc/passwd")
      ∧ mp_import_stat true (fun _ => MP_IMPORT_STAT_FILE) (lit "/etc/passwd")
          = some MP_IMPORT_STAT_NO_EXIST :=
  ⟨by decide, by decide, by decide,
    mp_import_stat_outside_roots (fun _ => MP_IMPORT_STAT_FILE) (lit "/etc/passwd")
      (by decide) (by decide) (by decide)⟩

/-- C2: in safe mode, each of the five denylist paths `/lib/json`, `/lib/os`,
`/lib/socket`, `/lib/struct`, `/lib/time` is reported as does-not-exist for
every filesystem state, also one that reports the path as a directory. -/
theorem mp_import_stat_denylist (vfs : List Nat → mp_import_stat_t) :
    mp_import_stat true vfs (lit "/lib/json") = some MP_IMPORT_STAT_NO_EXIST
      ∧ mp_import_stat true vfs (lit "/lib/os") = some MP_IMPORT_STAT_NO_EXIST
      ∧ mp_import_stat true vfs (lit "/lib/socket") = some MP_IMPORT_STAT_NO_EXIST
      ∧ mp_import_stat true vfs (lit "/lib/struct") = some MP_IMPORT_STAT_NO_EXIST
      ∧ mp_import_stat true vfs (lit "/lib/time") = some MP_IMPORT_STAT_NO_EXIST :=
  ⟨mp_import_stat_blacklisted vfs _ (by decide), mp_import_stat_blacklisted vfs _ (by decide),
    mp_import_stat_blacklisted vfs _ (by decide), mp_import_stat_blacklisted vfs _ (by decide),
    mp_import_stat_blacklisted vfs _ (by decide)⟩

/-- C3: in safe mode, for a path that starts with `/lib/` and has no `/` after
these 5 bytes: a filesystem status other than is-directory gives
does-not-exist; the status is-directory gives is-directory when the path (a
string, so without a 0 byte) is not a denylist entry. -/
theorem mp_import_stat_top_level (vfs : List Nat → mp_import_stat_t) (path : List Nat)
    (hlib : lit "/lib/" <+: path) (hflat : '/'.toNat ∉ path.drop 5) :
    (vfs path ≠ MP_IMPORT_STAT_DIR →
        mp_import_stat true vfs path = some MP_IMPORT_STAT_NO_EXIST)
      ∧ (vfs path = MP_IMPORT_STAT_DIR → 0 ∉ path → path ∉ import_blacklist →
        mp_import_stat true vfs path = some MP_IMPORT_STAT_DIR) := by
  have hidx : index (path.drop 5) '/'.toNat = none :=
    index_eq_none '/'.toNat (by decide) (path.drop 5) hflat
  constructor
  · intro hst
    cases hbl : blacklist_loop path import_blacklist with
    | true => exact mp_import_stat_blacklisted vfs path hbl
    | false =>
      rw [mp_import_stat_searched vfs path (Or.inl hlib) hbl, hidx]
      simp [hst]
  · intro hst h0 hnot
    rw [mp_import_stat_searched vfs path (Or.inl hlib) (blacklist_loop_false path h0 hnot), hidx]
    simp [hst]

/-- Witness for C3: `/lib/widgets`. -/
theorem mp_import_stat_top_level_witness :
    (lit "/lib/" <+: lit "/lib/widgets") ∧ ('/'.toNat ∉ (lit "/lib/widgets").drop 5)
      ∧ mp_import_stat true (fun _ => MP_IMPORT_STAT_FILE) (lit "/lib/widgets")
          = some MP_IMPORT_STAT_NO_EXIST
      ∧ mp_import_stat true (fun _ => MP_IMPORT_STAT_DIR) (lit "/lib/widgets")
          = some MP_IMPORT_STAT_DIR :=
  ⟨by decide, by decide,
    (mp_import_stat_top_level (fun _ => MP_IMPORT_STAT_FILE) (lit "/lib/widgets")
      (by decide) (by decide)).1 (by decide),
    (mp_import_stat_top_level (fun _ => MP_IMPORT_STAT_DIR) (lit "/lib/widgets")
      (by decide) (by decide)).2 rfl (by decide) (by decide)⟩

/-- C4: in safe mode, for a path (a string, so without a 0 byte) that starts
with one of the roots `/lib/`, `/bpp/lib/`, `/sdcard/lib/` and has a further
`/` after that root, the result is exactly what the filesystem-status lookup
returns for that very path. -/
theorem mp_import_stat_nested (vfs : List Nat → mp_import_stat_t) (path root : List Nat)
    (hroot : root ∈ [lit "/lib/", lit "/bpp/lib/", lit "/sdcard/lib/"])
    (hpre : root <+: path) (hslash : '/'.toNat ∈ path.drop root.length) (h0 : 0 ∉ path) :
    mp_import_stat true vfs path = some (vfs path) := by
  have hroots : lit "/lib/" <+: path ∨ lit "/bpp/lib/" <+: path ∨ lit "/sdcard/lib/" <+: path := by
    simp only [List.mem_cons, List.mem_singleton, List.not_mem_nil, or_false] at hroot
    rcases hroot with e | e | e
    · exact Or.inl (e ▸ hpre)
    · exact Or.inr (Or.inl (e ▸ hpre))
    · exact Or.inr (Or.inr (e ▸ hpre))
  have hnot : path ∉ import_blacklist := by
    intro hmem
    have key : ∀ e ∈ import_blacklist,
        ∀ r ∈ [lit "/lib/", lit "/bpp/lib/", lit "/sdcard/lib/"],
          r <+: e → '/'.toNat ∉ e.drop r.length := by decide
    exact key path hmem root hroot hpre hslash
  have hlen : 5 ≤ root.length :=
    (by decide : ∀ r ∈ [lit "/lib/", lit "/bpp/lib/", lit "/sdcard/lib/"], 5 ≤ r.length)
      root hroot
  have hmem5 : '/'.toNat ∈ path.drop 5 := by
    have hd : path.drop root.length = (path.drop 5).drop (root.length - 5) := by
      rw [List.drop_drop]
      congr 1
      omega
    rw [hd] at hslash
    exact List.mem_of_mem_drop hslash
  have h05 : 0 ∉ path.drop 5 := fun h => h0 (List.mem_of_mem_drop h)
  have hsome := index_isSome '/'.toNat (path.drop 5) h05 hmem5
  rw [mp_import_stat_searched vfs path hroots (blacklist_loop_false path h0 hnot)]
  cases hi : index (path.drop 5) '/'.toNat with
  | none => rw [hi] at hsome; simp at hsome
  | some k => rfl

/-- Witness for C4: `/lib/widgets/helper`, reported as a file. -/
theorem mp_import_stat_nested_witness :
    (lit "/lib/" ∈ [lit "/lib/", lit "/bpp/lib/", lit "/sdcard/lib/"])
      ∧ (lit "/lib/" <+: lit "/lib/widgets/helper")
      ∧ ('/'.toNat ∈ (lit "/lib/widgets/helper").drop (lit "/lib/").length)
      ∧ (0 ∉ lit "/lib/widgets/helper")
      ∧ mp_import_stat true (fun _ => MP_IMPORT_STAT_FILE) (lit "/lib/widgets/helper")
          = some MP_IMPORT_STAT_FILE :=
  ⟨by decide, by decide, by decide, by decide,
    mp_import_stat_nested (fun _ => MP_IMPORT_STAT_FILE) (lit "/lib/widgets/helper")
      (lit "/lib/") (by decide) (by decide) (by decide) (by decide)⟩

/-- C5: when the safe-mode flag is false, `mp_import_stat` returns exactly the
result of the filesystem-status lookup on the path, for every path and every
filesystem state. -/
theorem mp_import_stat_pass_through (vfs : List Nat → mp_import_stat_t) (path : List Nat) :
    mp_import_stat false vfs path = some (vfs path) := by
  simp [mp_import_stat]

/-- C10: in safe mode, a path that passes the prefix check of `mp_import_stat`
has at least 5 bytes before its terminator, so `&path[5]` points into the
string and the function never takes the out-of-bounds case. -/
theorem mp_import_stat_offset_in_bounds (path : List Nat)
    (hpass : ¬ (strncmp path (lit "/lib/") 5 ≠ 0
        ∧ strncmp path (lit "/bpp/lib/") 9 ≠ 0
        ∧ strncmp path (lit "/sdcard/lib/") 12 ≠ 0)) :
    5 ≤ strlen path
      ∧ offset path 5 = some (path.drop 5)
      ∧ ∀ vfs : List Nat → mp_import_stat_t, mp_import_stat true vfs path ≠ none := by
  have hroots := prefix_check_passed path hpass
  have h5 := five_le_strlen path hroots
  refine ⟨h5, offset_of_le path 5 h5, fun vfs => ?_⟩
  cases hbl : blacklist_loop path import_blacklist with
  | true => rw [mp_import_stat_blacklisted vfs path hbl]; simp
  | false =>
    rw [mp_import_stat_searched vfs path hroots hbl]
    cases index (path.drop 5) '/'.toNat with
    | none => by_cases hd : vfs path = MP_IMPORT_STAT_DIR <;> simp [hd]
    | some k => simp

/-- Witness for C10: `/lib/`, the shortest path that passes the prefix check;
the search from offset 5 scans the empty string. -/
theorem mp_import_stat_offset_in_bounds_witness :
    (¬ (strncmp (lit "/lib/") (lit "/lib/") 5 ≠ 0
        ∧ strncmp (lit "/lib/") (lit "/bpp/lib/") 9 ≠ 0
        ∧ strncmp (lit "/lib/") (lit "/sdcard/lib/") 12 ≠ 0))
      ∧ 5 ≤ strlen (lit "/lib/")
      ∧ offset (lit "/lib/") 5 = some []
      ∧ mp_import_stat true (fun _ => MP_IMPORT_STAT_FILE) (lit "/lib/") ≠ none :=
  ⟨by decide, (mp_import_stat_offset_in_bounds (lit "/lib/") (by decide)).1,
    (mp_import_stat_offset_in_bounds (lit "/lib/") (by decide)).2.1,
    (mp_import_stat_offset_in_bounds (lit "/lib/") (by decide)).2.2
      (fun _ => MP_IMPORT_STAT_FILE)⟩

/-! ## The boot dispatcher -/

theorem not_uint8_eq (x : Nat) (h : x < 256) : not_uint8 x = 255 - x := by
  unfold not_uint8
  omega

set_option maxRecDepth 100000 in
theorem bitwise_not_eq (x : Nat) (h : x < 256) : bitwise_not x = 255 - x := by
  have key : ∀ y < 256, y ^^^ 255 = 255 - y := by decide
  exact key x h

/-- The test `magic == (uint8_t)~inv_magic` of `app_main`, on two bytes, holds
exactly when the second byte is the bitwise complement of the first. -/
theorem magic_test_iff (v c : Nat) (hv : v < 256) (hc : c < 256) :
    v = not_uint8 c ↔ c = bitwise_not v := by
  rw [not_uint8_eq c hc, bitwise_not_eq v hv]
  omega

theorem wait_for_event_log (es : List Nat) (s : State) :
    ∃ k, (wait_for_event es s).1 =
      { in_safe_mode := s.in_safe_mode,
        log := s.log ++ List.replicate k (Call.badge_input_get_event 1000, s.in_safe_mode) } := by
  induction es generalizing s with
  | nil => exact ⟨0, by simp [wait_for_event]⟩
  | cons e es ih =>
    simp only [wait_for_event]
    by_cases he : e = 0
    · obtain ⟨k, hk⟩ := ih (call (Call.badge_input_get_event 1000) s)
      refine ⟨k + 1, ?_⟩
      simp only [he, if_true, hk]
      simp [call, List.replicate_succ]
    · exact ⟨1, by simp [he, call]⟩

/-- The log that `do_bpp_bgnd` leaves: the log it started from, followed by
calls among which there is no task creation. -/
theorem do_bpp_bgnd_log (env : Env) (s : State) :
    ∃ tail, (do_bpp_bgnd env s).1.log = s.log ++ tail
      ∧ ∀ x ∈ tail, x.1 ∈ [Call.bpp_init, Call.printf "Bpp inited.\n",
          Call.badge_input_get_event 1000,
          Call.printf "Touch detected. Exiting bpp, rebooting.\n", Call.esp_restart] := by
  obtain ⟨k, hk⟩ := wait_for_event_log env.badge_input_get_event
    (call (Call.printf "Bpp inited.\n") (call Call.bpp_init s))
  have hd : do_bpp_bgnd env s =
      match wait_for_event env.badge_input_get_event
          (call (Call.printf "Bpp inited.\n") (call Call.bpp_init s)) with
      | (s, false) => (s, Ctl.waiting)
      | (s, true) =>
        (call Call.esp_restart
          (call (Call.printf "Touch detected. Exiting bpp, rebooting.\n") s), Ctl.restarted) := rfl
  rw [hd]
  generalize wait_for_event env.badge_input_get_event
    (call (Call.printf "Bpp inited.\n") (call Call.bpp_init s)) = r at hk
  obtain ⟨s2, b⟩ := r
  simp only at hk
  subst hk
  cases b with
  | false =>
    refine ⟨[(Call.bpp_init, s.in_safe_mode), (Call.printf "Bpp inited.\n", s.in_safe_mode)]
      ++ List.replicate k (Call.badge_input_get_event 1000, s.in_safe_mode), ?_, ?_⟩
    · simp [call]
    · intro x hx
      simp only [List.mem_append, List.mem_cons, List.mem_replicate, List.mem_singleton,
        List.not_mem_nil, or_false] at hx
      rcases hx with (hx | hx) | ⟨-, hx⟩ <;> simp [hx]
  | true =>
    refine ⟨[(Call.bpp_init, s.in_safe_mode), (Call.printf "Bpp inited.\n", s.in_safe_mode)]
      ++ List.replicate k (Call.badge_input_get_event 1000, s.in_safe_mode)
      ++ [(Call.printf "Touch detected. Exiting bpp, rebooting.\n", s.in_safe_mode),
          (Call.esp_restart, s.in_safe_mode)], ?_, ?_⟩
    · simp [call]
    · intro x hx
      simp only [List.mem_append, List.mem_cons, List.mem_replicate, List.mem_singleton,
        List.not_mem_nil, or_false] at hx
      rcases hx with ((hx | hx) | ⟨-, hx⟩) | hx | hx <;> simp [hx]

/-- C6: for the two bytes read from offsets 0 and 1, `app_main` takes the
valid-register branch if and only if the second is the 8-bit bitwise complement
of the first. -/
theorem valid_branch_iff_complement (cfg : Config) (env : Env) (in_safe_mode0 : Bool) :
    valid_branch_taken (app_main cfg env in_safe_mode0) ↔
      env.esp_rtcmem_read 1 % 256 = bitwise_not (env.esp_rtcmem_read 0 % 256) := by
  rw [← magic_test_iff _ _ (Nat.mod_lt _ (by decide)) (Nat.mod_lt _ (by decide))]
  unfold valid_branch_taken calls app_main
  by_cases h : env.esp_rtcmem_read 0 % 256 = not_uint8 (env.esp_rtcmem_read 1 % 256)
  · refine iff_of_true ?_ h
    simp only [if_pos h]
    split_ifs
    · simp [call]
    · obtain ⟨tail, ht, -⟩ := do_bpp_bgnd_log env
        (call (Call.printf "Starting bpp.\n") (call Call.badge_init
          (call (Call.printf "Magic checked out!\n") (call (Call.esp_rtcmem_read 1)
            (call (Call.esp_rtcmem_read 0) (call Call.badge_base_init
              (call Call.badge_check_first_run
                { in_safe_mode := in_safe_mode0, log := [] })))))))
      rw [ht]
      simp [call]
    · simp [call, create_mp_task]
    · simp [call]
    · simp [call]
  · refine iff_of_false ?_ h
    simp only [if_neg h]
    split_ifs <;> simp [call, create_mp_task]

/-- The calls of `do_bpp_bgnd` add no task creation to the log. -/
theorem do_bpp_bgnd_tasks (env : Env) (s : State) :
    tasks_created (do_bpp_bgnd env s) = (s.log.map Prod.fst).countP is_task_create := by
  obtain ⟨tail, ht, hn⟩ := do_bpp_bgnd_log env s
  unfold tasks_created calls
  rw [ht, List.map_append, List.countP_append]
  have h0 : (tail.map Prod.fst).countP is_task_create = 0 := by
    rw [List.countP_eq_zero]
    intro c hc
    obtain ⟨x, hx, rfl⟩ := List.mem_map.mp hc
    have := hn x hx
    simp only [List.mem_cons, List.mem_singleton, List.not_mem_nil, or_false] at this
    rcases this with e | e | e | e | e <;> simp [e, is_task_create]
  omega

/-- The run of `app_main` on an invalid register. -/
theorem app_main_invalid (cfg : Config) (env : Env) (in_safe_mode0 : Bool)
    (h : env.esp_rtcmem_read 1 % 256 ≠ bitwise_not (env.esp_rtcmem_read 0 % 256)) :
    app_main cfg env in_safe_mode0 =
      (create_mp_task
        (if env.rtc_get_reset_reason % 2 ^ 32 ≠ cfg.DEEPSLEEP_RESET then
          (if (env.badge_input_button_state % 2 ^ 32) &&& BUTTON_SAFE_MODE cfg
              = BUTTON_SAFE_MODE cfg then
            { in_safe_mode := true,
              log := [(Call.badge_check_first_run, in_safe_mode0),
                (Call.badge_base_init, in_safe_mode0), (Call.esp_rtcmem_read 0, in_safe_mode0),
                (Call.esp_rtcmem_read 1, in_safe_mode0),
                (Call.rtc_get_reset_reason 0, in_safe_mode0), (Call.badge_init, in_safe_mode0)] }
          else
            { in_safe_mode := in_safe_mode0,
              log := [(Call.badge_check_first_run, in_safe_mode0),
                (Call.badge_base_init, in_safe_mode0), (Call.esp_rtcmem_read 0, in_safe_mode0),
                (Call.esp_rtcmem_read 1, in_safe_mode0),
                (Call.rtc_get_reset_reason 0, in_safe_mode0), (Call.badge_init, in_safe_mode0)] })
        else
          { in_safe_mode := in_safe_mode0,
            log := [(Call.badge_check_first_run, in_safe_mode0),
              (Call.badge_base_init, in_safe_mode0), (Call.esp_rtcmem_read 0, in_safe_mode0),
              (Call.esp_rtcmem_read 1, in_safe_mode0),
              (Call.rtc_get_reset_reason 0, in_safe_mode0)] }),
        Ctl.returned) := by
  have h2 : ¬ env.esp_rtcmem_read 0 % 256 = not_uint8 (env.esp_rtcmem_read 1 % 256) := by
    rw [magic_test_iff _ _ (Nat.mod_lt _ (by decide)) (Nat.mod_lt _ (by decide))]
    exact h
  simp only [app_main, if_neg h2]
  split_ifs <;> simp [call]

/-- C7: with the companion-app feature compiled in and a valid register, the
interpreter task is created if and only if the mode is 2 and the button
snapshot is non-zero, and then exactly once and without any companion-app
call; in every other case (mode 1, where OTA is invoked, mode 3, mode 2 with
snapshot 0, any other mode) it is not created. -/
theorem task_created_iff_touch_wake (cfg : Config) (env : Env) (in_safe_mode0 : Bool)
    (hbpp : cfg.CONFIG_SHA_BPP_ENABLE = true)
    (hvalid : env.esp_rtcmem_read 1 % 256 = bitwise_not (env.esp_rtcmem_read 0 % 256)) :
    tasks_created (app_main cfg env in_safe_mode0) =
        (if env.esp_rtcmem_read 0 % 256 = 2 ∧ env.badge_input_button_state % 2 ^ 32 ≠ 0
          then 1 else 0)
      ∧ (env.esp_rtcmem_read 0 % 256 = 2 ∧ env.badge_input_button_state % 2 ^ 32 ≠ 0 →
          ∀ c ∈ calls (app_main cfg env in_safe_mode0),
            c ≠ Call.bpp_init ∧ c ≠ Call.esp_restart ∧ c ≠ Call.printf "Starting bpp.\n"
              ∧ ∀ t, c ≠ Call.badge_input_get_event t)
      ∧ (env.esp_rtcmem_read 0 % 256 = 1 →
          Call.sha2017_ota_update ∈ calls (app_main cfg env in_safe_mode0)) := by
  have h : env.esp_rtcmem_read 0 % 256 = not_uint8 (env.esp_rtcmem_read 1 % 256) := by
    rw [magic_test_iff _ _ (Nat.mod_lt _ (by decide)) (Nat.mod_lt _ (by decide))]
    exact hvalid
  simp only [app_main, if_pos h, hbpp, true_and]
  by_cases h1 : env.esp_rtcmem_read 0 % 256 = 1
  · simp [h1, tasks_created, calls, call, is_task_create]
  · by_cases h2 : env.esp_rtcmem_read 0 % 256 = 2
    · by_cases hb : env.badge_input_button_state % 2 ^ 32 = 0
      · have hb2 : env.badge_input_button_state % 4294967296 = 0 := hb
        simp only [if_neg h1, if_pos h2, if_pos hb, do_bpp_bgnd_tasks]
        simp [h2, hb2, call, is_task_create]
      · have hb2 : ¬ env.badge_input_button_state % 4294967296 = 0 := hb
        simp only [if_neg h1, if_pos h2, if_neg hb]
        simp [h2, hb2, tasks_created, calls, call, create_mp_task, is_task_create]
    · by_cases h3 : env.esp_rtcmem_read 0 % 256 = 3
      · simp [h1, h2, h3, tasks_created, calls, call, is_task_create]
      · simp [h1, h2, h3, tasks_created, calls, call, is_task_create]

/-- Witness for C7: mode 2 with complement 253 and button snapshot 4, where the
task is created once and `bpp_init` is not called; and mode 1 with complement
254, where OTA is invoked and no task is created. -/
theorem task_created_iff_touch_wake_witness :
    (253 : Nat) % 256 = bitwise_not (2 % 256)
      ∧ tasks_created (app_main ⟨true, 9, 5⟩ ⟨fun i => if i = 0 then 2 else 253, 1, 4, []⟩ false)
          = 1
      ∧ Call.bpp_init ∉
          calls (app_main ⟨true, 9, 5⟩ ⟨fun i => if i = 0 then 2 else 253, 1, 4, []⟩ false)
      ∧ (254 : Nat) % 256 = bitwise_not (1 % 256)
      ∧ tasks_created (app_main ⟨true, 9, 5⟩ ⟨fun i => if i = 0 then 1 else 254, 1, 4, []⟩ false)
          = 0
      ∧ Call.sha2017_ota_update ∈
          calls (app_main ⟨true, 9, 5⟩ ⟨fun i => if i = 0 then 1 else 254, 1, 4, []⟩ false) :=
  ⟨by decide,
    (task_created_iff_touch_wake ⟨true, 9, 5⟩ ⟨fun i => if i = 0 then 2 else 253, 1, 4, []⟩
      false rfl (by decide)).1.trans (by decide),
    fun hmem => ((task_created_iff_touch_wake ⟨true, 9, 5⟩
      ⟨fun i => if i = 0 then 2 else 253, 1, 4, []⟩ false rfl (by decide)).2.1
        (by decide) Call.bpp_init hmem).1 rfl,
    by decide,
    (task_created_iff_touch_wake ⟨true, 9, 5⟩ ⟨fun i => if i = 0 then 1 else 254, 1, 4, []⟩
      false rfl (by decide)).1.trans (by decide),
    (task_created_iff_touch_wake ⟨true, 9, 5⟩ ⟨fun i => if i = 0 then 1 else 254, 1, 4, []⟩
      false rfl (by decide)).2.2 (by decide)⟩

/-- C8, as stated, fails: with `BADGE_BUTTON_START = 9` the safe-mode
combination is 512; on an invalid register (bytes 0 and 0) and a reset reason
other than deep sleep, the sampled mask 576 (START together with bit 6) differs
from the combination, yet `app_main` sets the safe-mode flag. -/
theorem safe_mode_exact_match_counterexample :
    (0 : Nat) % 256 ≠ bitwise_not (0 % 256)
      ∧ (1 : Nat) % 2 ^ 32 ≠ 5
      ∧ (576 : Nat) % 2 ^ 32 ≠ BUTTON_SAFE_MODE ⟨true, 9, 5⟩
      ∧ (app_main ⟨true, 9, 5⟩ ⟨fun _ => 0, 1, 576, []⟩ false).1.in_safe_mode = true := by
  decide

/-- C8, amended: on an invalid register and a reset reason other than deep
sleep, `app_main` sets the safe-mode flag exactly when every bit of the
safe-mode combination is set in the sampled mask, that is when
`(mask & BUTTON_SAFE_MODE) == BUTTON_SAFE_MODE`, whatever other buttons are
pressed. The flag is then true when the interpreter task is created (the one
and last call of the run); in particular this happens when the mask equals the
combination. Otherwise the flag keeps its initial value. -/
theorem safe_mode_set_iff_combination_held (cfg : Config) (env : Env) (in_safe_mode0 : Bool)
    (hinvalid : env.esp_rtcmem_read 1 % 256 ≠ bitwise_not (env.esp_rtcmem_read 0 % 256))
    (hcause : env.rtc_get_reset_reason % 2 ^ 32 ≠ cfg.DEEPSLEEP_RESET) :
    ((env.badge_input_button_state % 2 ^ 32) &&& BUTTON_SAFE_MODE cfg = BUTTON_SAFE_MODE cfg →
        (app_main cfg env in_safe_mode0).1.in_safe_mode = true
          ∧ (app_main cfg env in_safe_mode0).1.log.getLast?
              = some (Call.xTaskCreateStaticPinnedToCore 0, true)
          ∧ tasks_created (app_main cfg env in_safe_mode0) = 1)
      ∧ ((env.badge_input_button_state % 2 ^ 32) &&& BUTTON_SAFE_MODE cfg ≠ BUTTON_SAFE_MODE cfg →
        (app_main cfg env in_safe_mode0).1.in_safe_mode = in_safe_mode0
          ∧ (app_main cfg env in_safe_mode0).1.log.getLast?
              = some (Call.xTaskCreateStaticPinnedToCore 0, in_safe_mode0)
          ∧ tasks_created (app_main cfg env in_safe_mode0) = 1)
      ∧ (env.badge_input_button_state % 2 ^ 32 = BUTTON_SAFE_MODE cfg →
        (app_main cfg env in_safe_mode0).1.in_safe_mode = true) := by
  rw [app_main_invalid cfg env in_safe_mode0 hinvalid, if_pos hcause]
  refine ⟨fun hm => ?_, fun hm => ?_, fun hm => ?_⟩
  · rw [if_pos hm]
    simp [create_mp_task, call, tasks_created, calls, is_task_create]
  · rw [if_neg hm]
    simp [create_mp_task, call, tasks_created, calls, is_task_create]
  · rw [if_pos (by rw [hm, Nat.and_self])]
    simp [create_mp_task, call]

/-- Witness for amended C8: the mask 576 of the counterexample, the mask 64
that lacks the START bit, and the mask 512 that equals the combination. -/
theorem safe_mode_set_iff_combination_held_witness :
    (0 : Nat) % 256 ≠ bitwise_not (0 % 256)
      ∧ (1 : Nat) % 2 ^ 32 ≠ 5
      ∧ (576 % 2 ^ 32) &&& BUTTON_SAFE_MODE ⟨true, 9, 5⟩ = BUTTON_SAFE_MODE ⟨true, 9, 5⟩
      ∧ (app_main ⟨true, 9, 5⟩ ⟨fun _ => 0, 1, 576, []⟩ false).1.in_safe_mode = true
      ∧ (64 % 2 ^ 32) &&& BUTTON_SAFE_MODE ⟨true, 9, 5⟩ ≠ BUTTON_SAFE_MODE ⟨true, 9, 5⟩
      ∧ (app_main ⟨true, 9, 5⟩ ⟨fun _ => 0, 1, 64, []⟩ false).1.in_safe_mode = false
      ∧ 512 % 2 ^ 32 = BUTTON_SAFE_MODE ⟨true, 9, 5⟩
      ∧ (app_main ⟨true, 9, 5⟩ ⟨fun _ => 0, 1, 512, []⟩ false).1.in_safe_mode = true :=
  ⟨by decide, by decide, by decide,
    ((safe_mode_set_iff_combination_held ⟨true, 9, 5⟩ ⟨fun _ => 0, 1, 576, []⟩ false
      (by decide) (by decide)).1 (by decide)).1,
    by decide,
    ((safe_mode_set_iff_combination_held ⟨true, 9, 5⟩ ⟨fun _ => 0, 1, 64, []⟩ false
      (by decide) (by decide)).2.1 (by decide)).1,
    by decide,
    (safe_mode_set_iff_combination_held ⟨true, 9, 5⟩ ⟨fun _ => 0, 1, 512, []⟩ false
      (by decide) (by decide)).2.2 (by decide)⟩

/-- C9: on an invalid register with reset reason deep-sleep wake, for every
button state, `app_main` leaves the safe-mode flag as it was, does not sample
the buttons, and creates the interpreter task exactly once; the run does not
depend on the button state at all. -/
theorem deep_sleep_wake_keeps_flag (cfg : Config) (env : Env) (in_safe_mode0 : Bool)
    (hinvalid : env.esp_rtcmem_read 1 % 256 ≠ bitwise_not (env.esp_rtcmem_read 0 % 256))
    (hcause : env.rtc_get_reset_reason % 2 ^ 32 = cfg.DEEPSLEEP_RESET) :
    (app_main cfg env in_safe_mode0).1.in_safe_mode = in_safe_mode0
      ∧ tasks_created (app_main cfg env in_safe_mode0) = 1
      ∧ (app_main cfg env in_safe_mode0).1.log.getLast?
          = some (Call.xTaskCreateStaticPinnedToCore 0, in_safe_mode0)
      ∧ Call.badge_init ∉ calls (app_main cfg env in_safe_mode0)
      ∧ ∀ buttons : Nat,
          app_main cfg { env with badge_input_button_state := buttons } in_safe_mode0
            = app_main cfg env in_safe_mode0 := by
  have hrun := app_main_invalid cfg env in_safe_mode0 hinvalid
  rw [if_neg (not_not.mpr hcause)] at hrun
  refine ⟨?_, ?_, ?_, ?_, fun buttons => ?_⟩
  · rw [hrun]; simp [create_mp_task, call]
  · rw [hrun]; simp [create_mp_task, call, tasks_created, calls, is_task_create]
  · rw [hrun]; simp [create_mp_task, call]
  · rw [hrun]; simp [create_mp_task, call, calls]
  · have hrun2 := app_main_invalid cfg { env with badge_input_button_state := buttons }
      in_safe_mode0 hinvalid
    rw [if_neg (not_not.mpr hcause)] at hrun2
    rw [hrun, hrun2]

/-- Witness for C9: an invalid register (bytes 0 and 0), reset reason 5 (deep
sleep) and the START button held. -/
theorem deep_sleep_wake_keeps_flag_witness :
    (0 : Nat) % 256 ≠ bitwise_not (0 % 256)
      ∧ (5 : Nat) % 2 ^ 32 = 5
      ∧ (app_main ⟨true, 9, 5⟩ ⟨fun _ => 0, 5, 512, []⟩ false).1.in_safe_mode = false
      ∧ tasks_created (app_main ⟨true, 9, 5⟩ ⟨fun _ => 0, 5, 512, []⟩ false) = 1 :=
  ⟨by decide, by decide,
    (deep_sleep_wake_keeps_flag ⟨true, 9, 5⟩ ⟨fun _ => 0, 5, 512, []⟩ false
      (by decide) (by decide)).1,
    (deep_sleep_wake_keeps_flag ⟨true, 9, 5⟩ ⟨fun _ => 0, 5, 512, []⟩ false
      (by decide) (by decide)).2.1⟩

end Esp32Main
